import Mathlib

/-!
Verification of the test anti-pattern detector (`test_antipattern_detector.py`).

The Python source is shallowly embedded here:

* text is `List Char` (alias `Str`); Python's `re` regular expressions are
  hand-compiled into a small executable regular-expression datatype matched
  with Brzozowski derivatives (`Regex`, `pySearch`);
* every function of the detector class (`strip_comments`,
  `extract_function_name`, `fuzzy_match_function`, `normalize_path`,
  `paths_match`, `is_false_positive`, the five context classifiers,
  `detect_patterns_in_file`, `detect_multiline_patterns`, `scan_directory`,
  `get_pattern_by_name`) is translated into a computable Lean definition
  of the same name;
* file input is modelled by passing the already-read file content; process
  exit is modelled by an `Option Int` (`none` models an uncaught Python
  exception, so no exit status is selected by the program logic itself).
-/

set_option maxRecDepth 4000

/-- Text of the embedded program: Python strings are lists of characters. -/
abbrev Str := List Char

/-- Character constants written via code points to keep source text plain. -/
def squoteChar : Char := Char.ofNat 39

def backtickChar : Char := Char.ofNat 96

def lbraceChar : Char := Char.ofNat 123

def rbraceChar : Char := Char.ofNat 125

/-- Python's regular-expression class `\s` (also the set stripped by `str.strip`). -/
def pyIsSpace (c : Char) : Bool :=
  c = ' ' || c = '\t' || c = '\n' || c = '\r' || c = Char.ofNat 11 || c = Char.ofNat 12

/-- Python's regular-expression class `\w` for the ASCII inputs in question. -/
def pyIsWord (c : Char) : Bool :=
  (('a' ≤ c && c ≤ 'z') || ('A' ≤ c && c ≤ 'Z') || ('0' ≤ c && c ≤ '9') || c = '_')

/-- Python's regular-expression class `\d`. -/
def pyIsDigit (c : Char) : Bool := '0' ≤ c && c ≤ '9'

/-- Regular expressions over characters; classes are Boolean character predicates. -/
inductive Regex where
  | fail : Regex
  | eps : Regex
  | cls : (Char → Bool) → Regex
  | cat : Regex → Regex → Regex
  | alt : Regex → Regex → Regex
  | star : Regex → Regex

namespace Regex

/-- Does the regular expression accept the empty word? -/
def nullable : Regex → Bool
  | fail => false
  | eps => true
  | cls _ => false
  | cat r1 r2 => nullable r1 && nullable r2
  | alt r1 r2 => nullable r1 || nullable r2
  | star _ => true

/-- Smart concatenation keeping derivative terms small. -/
def scat : Regex → Regex → Regex
  | fail, _ => fail
  | eps, r2 => r2
  | r1, eps => r1
  | _, fail => fail
  | r1, r2 => cat r1 r2

/-- Smart alternation keeping derivative terms small. -/
def salt : Regex → Regex → Regex
  | fail, r2 => r2
  | r1, fail => r1
  | r1, r2 => alt r1 r2

/-- Brzozowski derivative with respect to one character. -/
def deriv : Regex → Char → Regex
  | fail, _ => fail
  | eps, _ => fail
  | cls p, c => if p c then eps else fail
  | cat r1 r2, c =>
      if nullable r1 then salt (scat (deriv r1 c) r2) (deriv r2 c)
      else scat (deriv r1 c) r2
  | alt r1 r2, c => salt (deriv r1 c) (deriv r2 c)
  | star r1, c => scat (deriv r1 c) (star r1)

/-- Syntactically dead state (used only to cut off doomed scans early). -/
def isFail : Regex → Bool
  | fail => true
  | _ => false

end Regex

/-- Does some prefix of `s` (possibly empty) belong to `r`? -/
def matchAtStart (r : Regex) (s : Str) : Bool :=
  match s with
  | [] => r.nullable
  | c :: rest =>
      if r.isFail then false
      else r.nullable || matchAtStart (r.deriv c) rest

/-- Does the whole word `s` belong to `r`? -/
def matchWhole (r : Regex) (s : Str) : Bool :=
  match s with
  | [] => r.nullable
  | c :: rest => if r.isFail then false else matchWhole (r.deriv c) rest

/-- Length of the longest prefix of `s` belonging to `r`, if any prefix does. -/
def longestPrefixLen (r : Regex) (s : Str) : Option Nat :=
  match s with
  | [] => if r.nullable then some 0 else none
  | c :: rest =>
      if r.isFail then none
      else
        match longestPrefixLen (r.deriv c) rest with
        | some n => some (n + 1)
        | none => if r.nullable then some 0 else none

/-- Compiled form of one Python pattern: `^` pins the match to the start of the
string, a trailing `$` forces the match to end at the end of the string (or
just before a final newline, as in Python without `re.MULTILINE`). -/
structure PyPat where
  anchorStart : Bool
  anchorEnd : Bool
  core : Regex

/-- Does `r` match from here to the string end, in Python `$` semantics
(end of string, or just before a trailing newline)? -/
def matchToEnd (r : Regex) (s : Str) : Bool :=
  matchWhole r s ||
    (match s.getLast? with
     | some c => c = '\n' && matchWhole r s.dropLast
     | none => false)

/-- Python `re.search` existence semantics for a compiled pattern. -/
def pySearch (p : PyPat) (s : Str) : Bool :=
  let att := fun suf => if p.anchorEnd then matchToEnd p.core suf else matchAtStart p.core suf
  if p.anchorStart then att s else s.tails.any att

/-- Python `re.match` existence semantics (anchored at position 0). -/
def pyMatch (p : PyPat) (s : Str) : Bool :=
  if p.anchorEnd then matchToEnd p.core s else matchAtStart p.core s

/-- Python lowercase for the ASCII texts scanned here. -/
def lowerStr (s : Str) : Str := s.map Char.toLower

/-- Case-insensitive `re.search`, realized by matching a lowercase-literal
pattern against the lowercased line (equivalent for the classes used). -/
def ciSearch (p : PyPat) (s : Str) : Bool := pySearch p (lowerStr s)

/-- Python `str.strip()`. -/
def pyStrip (s : Str) : Str :=
  ((s.dropWhile pyIsSpace).reverse.dropWhile pyIsSpace).reverse

/-- Python `str.rstrip()`. -/
def pyRstrip (s : Str) : Str :=
  (s.reverse.dropWhile pyIsSpace).reverse

/-- Python substring test `a in b`. -/
def strIn (a b : Str) : Bool := b.tails.any (fun t => a.isPrefixOf t)

/-- Count occurrences of one character (Python `str.count` for these calls). -/
def countChar (s : Str) (c : Char) : Nat := s.count c

/-- Python `re.sub` of one-or-more whitespace by a single space. -/
def collapseWs : Bool → Str → Str
  | _, [] => []
  | prevSpace, c :: rest =>
      if pyIsSpace c then
        if prevSpace then collapseWs true rest else ' ' :: collapseWs true rest
      else c :: collapseWs false rest

/-- Left-to-right, non-overlapping `str.replace`; fuel bounds the recursion. -/
def replaceAllFuel (fuel : Nat) (pat rep s : Str) : Str :=
  match fuel, s with
  | 0, s => s
  | _, [] => []
  | fuel + 1, c :: rest =>
      if pat ≠ [] && pat.isPrefixOf (c :: rest) then
        rep ++ replaceAllFuel fuel pat rep ((c :: rest).drop pat.length)
      else c :: replaceAllFuel fuel pat rep rest

/-- Python `str.replace` (every occurrence, scanning left to right). -/
def replaceAll (pat rep s : Str) : Str := replaceAllFuel s.length pat rep s

/-- Python `str.split(sep)` for a single-character separator. -/
def splitOnChar (sep : Char) : Str → List Str
  | [] => [[]]
  | c :: rest =>
      match splitOnChar sep rest with
      | [] => [[c]]
      | h :: t => if c = sep then [] :: h :: t else (c :: h) :: t

/-- Accumulator worker for `wordRuns`; `cur` holds the current run reversed. -/
def wordRunsGo (cur : Str) : Str → List Str
  | [] => if cur = [] then [] else [cur.reverse]
  | c :: rest =>
      if pyIsWord c then wordRunsGo (c :: cur) rest
      else if cur = [] then wordRunsGo [] rest
      else cur.reverse :: wordRunsGo [] rest

/-- Maximal runs of word characters: Python `re.findall` of one-or-more `\w`. -/
def wordRuns (s : Str) : List Str := wordRunsGo [] s

/-- Accumulator worker for `pyReadLines`; `cur` holds the current line reversed. -/
def pyReadLinesGo (cur : Str) : Str → List Str
  | [] => if cur = [] then [] else [cur.reverse]
  | c :: rest =>
      if c = '\n' then (c :: cur).reverse :: pyReadLinesGo [] rest
      else pyReadLinesGo (c :: cur) rest

/-- Python `file.readlines`: split after every newline, keeping the newline. -/
def pyReadLines (s : Str) : List Str := pyReadLinesGo [] s

/-! Section: Regular-expression construction helpers -/

/-- Literal character. -/
def rc (c : Char) : Regex := Regex.cls (fun x => x = c)

/-- Literal string. -/
def rs (s : String) : Regex := (s.data.map rc).foldr Regex.cat Regex.eps

/-- Concatenation of a list of regular expressions. -/
def rcat (l : List Regex) : Regex := l.foldr Regex.cat Regex.eps

/-- Alternation of a list of regular expressions (in order). -/
def ralt (l : List Regex) : Regex := l.foldr Regex.alt Regex.fail

/-- Character class from a predicate. -/
def rcls (p : Char → Bool) : Regex := Regex.cls p

/-- One or more repetitions. -/
def rplus (r : Regex) : Regex := Regex.cat r (Regex.star r)

/-- Zero or one repetition. -/
def ropt (r : Regex) : Regex := Regex.alt r Regex.eps

/-- Python `\s*`. -/
def wsS : Regex := Regex.star (rcls pyIsSpace)

/-- Python `\s+`. -/
def wsP : Regex := rplus (rcls pyIsSpace)

/-- Python `\w*`. -/
def wdS : Regex := Regex.star (rcls pyIsWord)

/-- Python `\w+`. -/
def wdP : Regex := rplus (rcls pyIsWord)

/-- Python `.` without `re.DOTALL`: any character except newline. -/
def dotC : Regex := rcls (fun c => c ≠ '\n')

/-- Python `.*` without `re.DOTALL`. -/
def dotS : Regex := Regex.star dotC

/-- Negated single-character class `[^c]`. -/
def notC (c : Char) : Regex := rcls (fun x => x ≠ c)

/-- Python `[^c]*`. -/
def notS (c : Char) : Regex := Regex.star (notC c)

/-- Python `[^c]+`. -/
def notP (c : Char) : Regex := rplus (notC c)

/-- The quote class `[\x27"]` used by the detector's patterns. -/
def quoteC : Regex := rcls (fun c => c = squoteChar || c = '"')

/-- The negated quote class `[^\x27"]`. -/
def nonQuoteC : Regex := rcls (fun c => !(c = squoteChar || c = '"'))

/-- Python `\d+`. -/
def digP : Regex := rplus (rcls pyIsDigit)

/-- Unanchored search pattern. -/
def pfree (r : Regex) : PyPat := ⟨false, false, r⟩

/-- Pattern anchored at both ends (`^...$`). -/
def pboth (r : Regex) : PyPat := ⟨true, true, r⟩

/-- Pattern anchored only at the end (`...$`). -/
def pend (r : Regex) : PyPat := ⟨false, true, r⟩

/-- Pattern anchored only at the start (`^...`). -/
def pstart (r : Regex) : PyPat := ⟨true, false, r⟩

/-! Section: Data model (`AntiPattern`, `Detection`, `FalsePositive`) -/

/-- One named pattern rule; the Python regex string is hand-compiled to `PyPat`. -/
structure AntiPattern where
  name : Str
  pattern : PyPat
  description : Str
  severity : Str

/-- One detection, mirroring the Python `Detection` named tuple. -/
structure Detection where
  filename : Str
  line_number : Nat
  pattern_name : Str
  code_line : Str
  context : List Str
  is_false_positive : Bool := false
  false_positive_reason : Option Str := none
deriving DecidableEq, Repr

/-- One reviewed finding from the registry, mirroring the Python `FalsePositive`. -/
structure FalsePositive where
  file : Str
  function : Str
  line_range : Int × Int
  pattern_name : Str
  code_snippet : Str
  reason : Str
  reviewed_by : Str
  review_date : Str
  confidence : Str
deriving DecidableEq, Repr

/-- The 32 single-line rules of `TestAntiPatternDetector.__init__`, in source
order.  They are matched case-insensitively, so literals appear lowercased
here and `ciSearch` lowercases the scanned line. -/
def anti_patterns : List AntiPattern := [
  { name := "Conditional Test Execution".data,
    pattern := pboth (rcat [wsS, rs "if", wsS, rc '(', notS ')', rc ')', wsS, ropt (rc lbraceChar), wsS]),
    description := "Tests wrapped in conditional statements that may skip execution".data,
    severity := "high".data },
  { name := "Try-Catch Fallback".data,
    pattern := pboth (rcat [wsS, rc rbraceChar, wsS, rs "catch", wsS, rc '(', notS ')', rc ')', wsS, rc lbraceChar, wsS]),
    description := "Catch blocks that may hide real test failures".data,
    severity := "high".data },
  { name := "Generic toBeTruthy Fallback".data,
    pattern := pfree (rs "expect(true).tobetruthy()"),
    description := "Generic truthy assertions that always pass".data,
    severity := "high".data },
  { name := "Function Existence Test".data,
    pattern := pfree (rcat [rs "expect(typeof", wsP, notP ')', rs ").tobe(", quoteC, rs "function", quoteC, rc ')']),
    description := "Tests that only check if functions exist, not their behavior".data,
    severity := "medium".data },
  { name := "Weak toBeDefined Assertion".data,
    pattern := pfree (rcat [rs "expect(", notP ')', rs ").tobedefined()"]),
    description := "Weak assertions that pass for any non-undefined value".data,
    severity := "medium".data },
  { name := "Weak not.toThrow Pattern".data,
    pattern := pfree (rcat [rs "expect(", notP ')', rs ").not.tothrow()"]),
    description := "Tests that only verify no exceptions, not actual behavior".data,
    severity := "medium".data },
  { name := "Suspicious Mock Usage".data,
    pattern := pfree (ralt [rs ".mockimplementation(", rs ".mockreturnvalue(", rs "jest.fn("]),
    description := "Mock usage that may be testing mocks instead of real behavior".data,
    severity := "low".data },
  { name := "Silent Failure Pattern".data,
    pattern := pfree (rcat [rs "expect(", notS ')', rs ").tobefalsy()", dotS, rs "//", dotS, rs "fail"]),
    description := "Tests that expect failure but may mask real issues".data,
    severity := "medium".data },
  { name := "Conditional Result Check".data,
    pattern := pfree (rcat [rs "if", wsS, rc '(', wsS, rs "result", wsS, rc ')']),
    description := "Tests that conditionally execute based on result existence".data,
    severity := "high".data },
  { name := "Conditional Component Check".data,
    pattern := pfree (rcat [rs "if", wsS, rc '(', wsS, wdP, rs "manager", wsS, rc ')']),
    description := "Tests that conditionally execute based on manager/component existence".data,
    severity := "high".data },
  { name := "Conditional Element Check".data,
    pattern := pfree (rcat [rs "if", wsS, rc '(', wsS, rs "element", wsS, rc ')']),
    description := "Tests that conditionally execute based on DOM element existence".data,
    severity := "high".data },
  { name := "Empty Catch Block".data,
    pattern := pfree (rcat [rc rbraceChar, wsS, rs "catch", wsS, rc '(', notS ')', rc ')', wsS, rc lbraceChar, wsS, rc rbraceChar]),
    description := "Empty catch blocks that silently ignore errors".data,
    severity := "high".data },
  { name := "Weak Object Type Check".data,
    pattern := pfree (rcat [rs "expect(typeof", wsP, notP ')', rs ").tobe(", quoteC, rs "object", quoteC, rc ')']),
    description := "Weak object type checks that do not validate structure".data,
    severity := "low".data },
  { name := "Generic expect.anything() Overuse".data,
    pattern := pfree (rs "expect.anything()"),
    description := "Overuse of expect.anything() which accepts any value".data,
    severity := "low".data },
  { name := "Conditional Test Description".data,
    pattern := pfree (rcat [rs "it(", dotS, rc '?', wsS, quoteC, Regex.star nonQuoteC, quoteC, dotS, rc ':']),
    description := "Test descriptions that change based on conditions".data,
    severity := "medium".data },
  { name := "Mock-Only Testing".data,
    pattern := pfree (rcat [rs "const", wsP, wdP, wsS, rc '=', wsS, rc lbraceChar, wsS, notS rbraceChar, rc ':', wsS, rs "jest.fn()"]),
    description := "Creating mock objects without testing real component behavior".data,
    severity := "high".data },
  { name := "Mock Return Value Testing".data,
    pattern := pfree (rcat [rs "mockfunction.mockreturnvalue(", notP ')', rs ");", wsS, rs "expect(mockfunction())"]),
    description := "Testing what a mock returns rather than testing real component behavior".data,
    severity := "high".data },
  { name := "Excessive Core Mocking".data,
    pattern := pfree (rcat [rs "window.", wdP, wsS, rc '=', wsS, rc lbraceChar, notS rbraceChar, rc rbraceChar, rc ';', wsS, rs "//", dotS, rs "mock"]),
    description := "Mocking core window objects instead of testing integration".data,
    severity := "medium".data },
  { name := "Mock Assertion Without Behavior".data,
    pattern := pend (rcat [rs "expect(", wdP, rs ".mock.calls).tohavelength(", digP, rc ')']),
    description := "Only checking if mock was called, not verifying actual behavior/effects".data,
    severity := "medium".data },
  { name := "Mock Implementation Testing".data,
    pattern := pfree (rcat [rs "expect(", wdP, rs ").tohavebeencalledwith(", notS ')', rs ");", wsS, rs "//", dotS, rs "only"]),
    description := "Only testing what parameters mock was called with, not actual results".data,
    severity := "medium".data },
  { name := "Fallback Assertion Masking".data,
    pattern := pfree (rcat [rc rbraceChar, wsS, rs "catch", wsS, rc '(', notS ')', rc ')', wsS, rc lbraceChar, wsS, rs "expect(true).tobe(true)"]),
    description := "Catch blocks with trivial assertions that hide real failures".data,
    severity := "high".data },
  { name := "Conditional Assertion Skip".data,
    pattern := pfree (rcat [rs "if", wsS, rc '(', notS ')', rc ')', wsS, rc lbraceChar, wsS, rs "expect(", notS ')', rs ");", wsS, rc rbraceChar, wsS, rs "else", wsS, rc lbraceChar, wsS, rs "expect(true)"]),
    description := "Conditional assertions with trivial fallbacks that skip validation".data,
    severity := "high".data },
  { name := "Weak Fallback Expectation".data,
    pattern := pfree (rcat [rc rbraceChar, wsS, rs "catch", wsS, rc '(', notS ')', rc ')', wsS, rc lbraceChar, wsS, rs "expect(", notS ')', rs ").tobedefined()"]),
    description := "Catch blocks with weak assertions that do not validate error handling".data,
    severity := "medium".data },
  { name := "Null Fallback Pattern".data,
    pattern := pfree (rcat [rs "expect(", notS ')', rs "||", wsS, rs "null).tobe(null)"]),
    description := "Fallback to null assertions that hide missing functionality".data,
    severity := "medium".data },
  { name := "Element Existence Fallback".data,
    pattern := pfree (rcat [rs "const", wsP, wdP, wsS, rc '=', wsS, rs "document.", wdP, rc '(', notS ')', rc ')', wsS, rs "||", wsS, rc lbraceChar, rc rbraceChar, rc ';']),
    description := "DOM element fallbacks that create fake objects instead of proper validation".data,
    severity := "high".data },
  { name := "Manager Creation Fallback".data,
    pattern := pfree (rcat [rs "if", wsS, rc '(', dotS, rs "window.", wdP, dotS, rs "undefined)", wsS, rc lbraceChar, wsS, rs "window.", wdP, wsS, rc '=', wsS, rc lbraceChar]),
    description := "Creating fake manager objects instead of proper dependency injection testing".data,
    severity := "high".data },
  { name := "Silent Error Swallowing".data,
    pattern := pfree (ralt [rcat [rc rbraceChar, wsS, rs "catch", wsS, rc '(', notS ')', rc ')', wsS, rc lbraceChar, wsS, rs "//", dotS, rs "ignore"], rcat [rs "//", dotS, rs "silent"]]),
    description := "Catch blocks that explicitly ignore errors without proper handling".data,
    severity := "high".data },
  { name := "Weak Instanceof Fallback".data,
    pattern := pfree (rcat [rs "expect(", notS ')', rs ").tobeinstanceof(object)"]),
    description := "Generic Object instanceof checks that do not validate specific types".data,
    severity := "low".data },
  { name := "Result Existence Without Validation".data,
    pattern := pfree (rcat [rs "expect(result).tobetruthy();", wsS, rs "//", dotS, rs "exists"]),
    description := "Only checking if result exists without validating its correctness".data,
    severity := "medium".data },
  { name := "Multiple Fallback Expectations".data,
    pattern := pfree (ralt [rcat [rs "expect(", notS ')', rs "||"], rcat [notS ')', rs "??", wsS, notS ')', rs ").tobe"]]),
    description := "Multiple fallback operators in expectations that mask missing values".data,
    severity := "medium".data },
  { name := "DOM Creation Fallback".data,
    pattern := pfree (rcat [rs "if", wsS, rc '(', rc '!', notS ')', rs "getelementbyid", notS ')', rc ')', wsS, rc lbraceChar, wsS, rs "const", wsP, wdP, wsS, rc '=', wsS, rs "document.createelement"]),
    description := "Creating DOM elements in tests instead of testing real DOM interaction".data,
    severity := "medium".data },
  { name := "Mock Module Loading Fallback".data,
    pattern := pfree (rcat [rs "if", wsS, rs "(typeof", wsP, rs "window.", wdP, dotS, rs "undefined)", wsS, rc lbraceChar, wsS, rs "throw", wsP, rs "new", wsP, rs "error"]),
    description := "Throwing errors for missing modules instead of proper mocking setup".data,
    severity := "low".data }
]

/-! Section: Comment stripper (`strip_comments`) -/

/-- Scanner state of `strip_comments` (the local variables of the Python loop). -/
structure StripState where
  result : Str
  in_string : Bool
  in_single_comment : Bool
  in_multi_comment : Bool
  escape_next : Bool
  quote_char : Option Char
deriving Repr, DecidableEq

/-- Initial scanner state at the start of every call. -/
def stripInit : StripState := ⟨[], false, false, false, false, none⟩

/-- Python condition `not in_single_comment and not in_multi_comment`. -/
def notInComment (st : StripState) : Bool := !st.in_single_comment && !st.in_multi_comment

/-- Loop body of `strip_comments`, one character per step; the ordered branch
structure mirrors the Python `while` loop.  Fuel equals the number of
remaining characters, so it never runs out (each step consumes at least one
character). -/
def stripGo (fuel : Nat) (st : StripState) (s : Str) : Str :=
  match fuel, s with
  | _, [] => st.result
  | 0, _ => st.result
  | fuel + 1, c :: rest =>
      if st.escape_next then
        stripGo fuel { st with
          result := if notInComment st then st.result ++ [c] else st.result,
          escape_next := false } rest
      else if c = '\\' then
        stripGo fuel { st with
          result := if notInComment st then st.result ++ [c] else st.result,
          escape_next := true } rest
      else if notInComment st && ((c = '"' || c = squoteChar || c = backtickChar) && !st.in_string) then
        stripGo fuel { st with in_string := true, quote_char := some c, result := st.result ++ [c] } rest
      else if notInComment st && (st.in_string && st.quote_char = some c) then
        stripGo fuel { st with in_string := false, quote_char := none, result := st.result ++ [c] } rest
      else if !st.in_string && (c = '/' && rest.head? = some '/') then
        st.result
      else if !st.in_string && (c = '/' && rest.head? = some '*') then
        stripGo fuel { st with in_multi_comment := true } rest.tail
      else if !st.in_string && (st.in_multi_comment && c = '*' && rest.head? = some '/') then
        stripGo fuel { st with in_multi_comment := false } rest.tail
      else
        stripGo fuel { st with
          result := if notInComment st then st.result ++ [c] else st.result } rest

/-- Python `strip_comments`: strip comments from a line while preserving strings. -/
def strip_comments (line : Str) : Str := stripGo line.length stripInit line

/-! Section: Context windows and multiline scanning -/

/-- Right-aligned decimal rendering of width four (Python format `:4d`). -/
def natPad4 (n : Nat) : Str :=
  let s := (Nat.repr n).data
  List.replicate (4 - s.length) ' ' ++ s

/-- Python `get_context_lines`. -/
def get_context_lines (lines : List Str) (line_index : Nat) (filename : Str)
    (context_size : Nat) : List Str :=
  let start := line_index - context_size
  let stop := min lines.length (line_index + context_size + 1)
  (List.range' start (stop - start)).map (fun i =>
    let marker := if i = line_index then ">>> ".data else "    ".data
    if filename ≠ [] then
      marker ++ filename ++ [':'] ++ natPad4 (i + 1) ++ ": ".data ++ pyRstrip (lines.getD i [])
    else
      marker ++ natPad4 (i + 1) ++ ": ".data ++ pyRstrip (lines.getD i []))

/-- Python `re.finditer` scan loop: leftmost matches, non-overlapping, resuming
at each match end; the greedy ends of these patterns are modelled as the
longest match at the found start position. -/
def finditerGo (fuel : Nat) (r : Regex) (s : Str) (pos : Nat) : List (Nat × Nat) :=
  match fuel with
  | 0 => []
  | fuel + 1 =>
      if pos > s.length then []
      else
        match longestPrefixLen r (s.drop pos) with
        | some n => (pos, n) :: finditerGo fuel r s (pos + max n 1)
        | none => finditerGo fuel r s (pos + 1)

/-- All matches of `r` in `s` as (start, length) pairs. -/
def pyFinditer (r : Regex) (s : Str) : List (Nat × Nat) := finditerGo (s.length + 1) r s 0

/-- The nine whole-file patterns of `detect_multiline_patterns`, in source
order: rule name, hand-compiled regex (matched case-sensitively), and the
context window size used for the resulting detection. -/
def multiline_patterns : List (Str × Regex × Nat) := [
  ("Mock-Heavy Test Without Validation".data,
   rcat [rs "const", wsP, wdP, rs "Manager", wsS, rc '=', wsS, rc lbraceChar, notS rbraceChar, rs "mock", notS rbraceChar, rc rbraceChar, rc ';', wsS, notS ';', rc ';', wsS, rs "expect(", notS ')', rs ").toBeTruthy()"], 10),
  ("Try-Catch With Mock-Only Assertions".data,
   rcat [rs "try", wsS, rc lbraceChar, notS rbraceChar, rc rbraceChar, wsS, rs "catch", notS rbraceChar, rc lbraceChar, wsS, rs "expect(", notS ')', rs "mock", notS ')', rs ").toBe"], 8),
  ("Window Mock Without Integration Testing".data,
   rcat [rs "window.", wdP, wsS, rc '=', wsS, rc lbraceChar, notS rbraceChar, rc rbraceChar, rc ';', wsS, notS ';', rc ';', wsS, rs "expect(window.", wdP, rs ").toBeDefined()"], 6),
  ("BeforeEach Fallback Creation".data,
   rcat [rs "beforeEach(", notS lbraceChar, rc lbraceChar, notS rbraceChar, rs "if", wsS, rc '(', notS ')', rs "undefined", notS ')', rc ')', notS rbraceChar, rs "document.createElement", notS rbraceChar, rc rbraceChar], 8),
  ("Conditional Mock Execution With Trivial Fallback".data,
   rcat [rs "if", wsS, rc '(', notS ')', rs "window.", wdP, notS ')', rc ')', wsS, rc lbraceChar, notS rbraceChar, rs "expect", notS rbraceChar, rc rbraceChar, wsS, rs "else", wsS, rc lbraceChar, notS rbraceChar, rs "expect(true)"], 8),
  ("Fake Manager Creation In Integration Test".data,
   rcat [rs "const", wsP, wdP, rs "Manager", wsS, rc '=', wsS, rc lbraceChar, notS rbraceChar, rc ':', wsS, rs "()", wsS, rs "=>", wsS, rs "true", notS rbraceChar, rc rbraceChar, rc ';', wsS, notS ';', rc ';', wsS, rs "expect(", notS ')', rs "Manager", notS ')', rs ").toBeTruthy"], 6),
  ("DOM Creation Avoiding Real DOM Testing".data,
   rcat [rs "if", wsS, rc '(', rc '!', notS ')', rs "getElementById", notS ')', rc ')', wsS, rc lbraceChar, notS rbraceChar, rs "createElement", notS rbraceChar, rs "appendChild", notS rbraceChar, rc rbraceChar], 6),
  ("Catch Block With Weak Fallback Assertion".data,
   rcat [rc rbraceChar, wsS, rs "catch", wsS, rc '(', notS ')', rc ')', wsS, rc lbraceChar, notS rbraceChar, rs "expect(", notS ')', rs "||", notS ')', rc ')', rs ".toBe"], 6),
  ("All Operations With Only Truthy Check".data,
   rcat [notS ';', rs "save", notS ';', wsS, notS ';', rs "edit", notS ';', wsS, notS ';', rs "delete", notS ';', wsS, rs "expect(", notS ')', rs ").toBeTruthy()"], 6)
]

/-- Python `detect_multiline_patterns`; `content` is `''.join(lines)`. -/
def detect_multiline_patterns (filepath : Str) (lines : List Str) : List Detection :=
  let content := lines.flatten
  multiline_patterns.flatMap (fun mp =>
    (pyFinditer mp.2.1 content).map (fun m =>
      let line_num := countChar (content.take m.1) '\n' + 1
      { filename := filepath,
        line_number := line_num,
        pattern_name := mp.1,
        code_line := (pyStrip (((content.drop m.1).take m.2).map
          (fun c => if c = '\n' then ' ' else c))).take 80 ++ "...".data,
        context := get_context_lines lines (line_num - 1) filepath mp.2.2 }))

/-! Section: Context classifiers -/

/-- Index list for Python `range(a, b)` over naturals. -/
def idxRange (a b : Nat) : List Nat := List.range' a (b - a)

/-- Pattern `^\s*if\s*\([^)]*\)\s*[\x7b]?\s*$` used by the classifiers
(`re.match` on the stripped previous line). -/
def clsIfHeaderPat : PyPat :=
  pboth (rcat [wsS, rs "if", wsS, rc '(', notS ')', rc ')', wsS, ropt (rc lbraceChar), wsS])

/-- Pattern `^\s*(?:it|describe)\s*\(`. -/
def clsItDescribePat : PyPat := pstart (rcat [wsS, ralt [rs "it", rs "describe"], wsS, rc '('])

/-- Pattern `^\s*it\s*\(`. -/
def clsItPat : PyPat := pstart (rcat [wsS, rs "it", wsS, rc '('])

/-- Pattern for concrete behavior assertions following a definedness check. -/
def behaviorAssertPat : PyPat :=
  pfree (rcat [rs "expect(", notP ')', rs ").",
    ralt [rs "toBe", rs "toEqual", rs "toContain", rs "toHaveLength", rs "toBeGreaterThan"]])

/-- Pattern `expect\(window\.\w+\)\.toBeDefined\(\)`. -/
def expectWindowToBeDefinedPat : PyPat := pfree (rcat [rs "expect(window.", wdP, rs ").toBeDefined()"])

/-- Pattern `expect\(\w+(?:Manager|Builder)\)\.toBeDefined\(\)`. -/
def expectMgrBldToBeDefinedPat : PyPat :=
  pfree (rcat [rs "expect(", wdP, ralt [rs "Manager", rs "Builder"], rs ").toBeDefined()"])

/-- Pattern `\w+(?:Manager|Builder)\.\w+\(`. -/
def managerBuilderCallPat : PyPat :=
  pfree (rcat [wdP, ralt [rs "Manager", rs "Builder"], rc '.', wdP, rc '('])

/-- Pattern `expect\(window\.\w+\)\.toBeInstanceOf\(Object\)`. -/
def expectWindowInstObjPat : PyPat := pfree (rcat [rs "expect(window.", wdP, rs ").toBeInstanceOf(Object)"])

/-- Pattern `expect\(\w+Manager\)\.toBeInstanceOf\(Object\)`. -/
def expectMgrInstObjPat : PyPat := pfree (rcat [rs "expect(", wdP, rs "Manager).toBeInstanceOf(Object)"])

/-- Pattern `expect\(typeof\s+\w*[Pp]arams?\w*\)`. -/
def expectTypeofParamsPat : PyPat :=
  pfree (rcat [rs "expect(typeof", wsP, wdS, rcls (fun c => c = 'P' || c = 'p'), rs "aram", ropt (rc 's'), wdS, rc ')'])

/-- Pattern `expect\(typeof\s+\w*[Dd]ata\w*\)`. -/
def expectTypeofDataPat : PyPat :=
  pfree (rcat [rs "expect(typeof", wsP, wdS, rcls (fun c => c = 'D' || c = 'd'), rs "ata", wdS, rc ')'])

/-- Pattern `expect\([^)]+\)\.(?:toHaveProperty|toEqual|toContain)`. -/
def propertyAssertPat : PyPat :=
  pfree (rcat [rs "expect(", notP ')', rs ").", ralt [rs "toHaveProperty", rs "toEqual", rs "toContain"]])

/-- Pattern `expect\(window\.\w+\.\w+\)\.toBeInstanceOf\(Function\)`. -/
def expectWindowFnInstFuncPat : PyPat :=
  pfree (rcat [rs "expect(window.", wdP, rc '.', wdP, rs ").toBeInstanceOf(Function)"])

/-- Pattern `\w+\.\w+\(`. -/
def methodCallPat : PyPat := pfree (rcat [wdP, rc '.', wdP, rc '('])

/-- Pattern `default:\s*expect\.anything\(\)`. -/
def anythingDefaultPat : PyPat := pfree (rcat [rs "default:", wsS, rs "expect.anything()"])

/-- Pattern `(?:created|modified|timestamp):\s*expect\.anything\(\)`. -/
def anythingTimestampPat : PyPat :=
  pfree (rcat [ralt [rs "created", rs "modified", rs "timestamp"], rc ':', wsS, rs "expect.anything()"])

/-- Pattern `parameters?:\s*expect\.anything\(\)`. -/
def anythingParamsPat : PyPat :=
  pfree (rcat [rs "parameter", ropt (rc 's'), rc ':', wsS, rs "expect.anything()"])

/-- Inner brace-counting loop of `is_legitimate_to_be_defined`: walks the
index list `js`, updating the open-brace count; reports `true` when a
conditional block opened before the match closes strictly after it
(the Python `return False` path). -/
def braceScan (lines : List Str) (line_index : Nat) (count : Int) (found : Bool) :
    List Nat → Bool
  | [] => false
  | j :: rest =>
      let check_line := pyStrip (lines.getD j [])
      let count1 := if strIn [lbraceChar] check_line then count + (countChar check_line lbraceChar : Int) else count
      let found1 := found || strIn [lbraceChar] check_line
      if strIn [rbraceChar] check_line then
        let count2 := count1 - (countChar check_line rbraceChar : Int)
        if found1 && decide (count2 ≤ 0) && decide (j > line_index) then true
        else braceScan lines line_index count2 found1 rest
      else braceScan lines line_index count1 found1 rest

/-- First phase of `is_legitimate_to_be_defined`: is the match inside a
conditional block opened in the previous 10 lines and closed after it? -/
def condBlockBroken (lines : List Str) (line_index : Nat) : Bool :=
  (idxRange (line_index - 10) line_index).any (fun i =>
    pyMatch clsIfHeaderPat (pyStrip (lines.getD i [])) &&
    braceScan lines line_index 0 false (idxRange i (min lines.length (line_index + 10))))

/-- Look-ahead of the namespaced-global branch of `is_legitimate_to_be_defined`:
a concrete behavior assertion before the next test/describe header. -/
def lookaheadBehavior (lines : List Str) : List Nat → Bool
  | [] => false
  | i :: rest =>
      let next_line := pyStrip (lines.getD i [])
      if pySearch behaviorAssertPat next_line && !strIn "toBeDefined".data next_line then true
      else if pyMatch clsItDescribePat next_line then false
      else lookaheadBehavior lines rest

/-- Python `is_legitimate_to_be_defined`. -/
def is_legitimate_to_be_defined (lines : List Str) (line_index : Nat) (line : Str) : Bool :=
  let current_line := pyStrip line
  if condBlockBroken lines line_index then false
  else
    let nearby_to_be_defined :=
      ((idxRange (line_index - 3) (min lines.length (line_index + 4))).filter (fun i =>
        i ≠ line_index && strIn "toBeDefined()".data (lines.getD i []))).length
    if nearby_to_be_defined ≥ 2 then true
    else if pySearch expectWindowToBeDefinedPat current_line &&
        lookaheadBehavior lines (idxRange (line_index + 1) (min lines.length (line_index + 10))) then true
    else if pySearch expectMgrBldToBeDefinedPat current_line &&
        (idxRange (line_index + 1) (min lines.length (line_index + 8))).any (fun i =>
          pySearch managerBuilderCallPat (pyStrip (lines.getD i []))) then true
    else if strIn "STO_DATA".data current_line then true
    else if (idxRange (line_index - 5) line_index).any (fun i =>
        pyMatch clsItPat (pyStrip (lines.getD i []))) then true
    else false

/-- Python `is_legitimate_instanceof_check`. -/
def is_legitimate_instanceof_check (lines : List Str) (line_index : Nat) (line : Str) : Bool :=
  let current_line := pyStrip line
  if (idxRange (line_index - 10) line_index).any (fun i =>
      pyMatch clsIfHeaderPat (pyStrip (lines.getD i []))) then false
  else if pySearch expectWindowInstObjPat current_line then true
  else if pySearch expectMgrInstObjPat current_line then true
  else if (idxRange (line_index - 5) line_index).any (fun i =>
      pyMatch clsItPat (pyStrip (lines.getD i []))) then true
  else
    ((idxRange (line_index - 3) (min lines.length (line_index + 4))).filter (fun i =>
      i ≠ line_index && strIn "toBeInstanceOf".data (lines.getD i []))).length ≥ 1

/-- Look-ahead of `is_legitimate_object_type_check`: a specific property
assertion before the next test/describe header. -/
def lookaheadProperty (lines : List Str) : List Nat → Bool
  | [] => false
  | i :: rest =>
      let next_line := pyStrip (lines.getD i [])
      if pySearch propertyAssertPat next_line then true
      else if pyMatch clsItDescribePat next_line then false
      else lookaheadProperty lines rest

/-- Python `is_legitimate_object_type_check`. -/
def is_legitimate_object_type_check (lines : List Str) (line_index : Nat) (line : Str) : Bool :=
  let current_line := pyStrip line
  if (idxRange (line_index - 10) line_index).any (fun i =>
      pyMatch clsIfHeaderPat (pyStrip (lines.getD i []))) then false
  else if pySearch expectTypeofParamsPat current_line then true
  else if pySearch expectTypeofDataPat current_line then true
  else lookaheadProperty lines (idxRange (line_index + 1) (min lines.length (line_index + 5)))

/-- Look-ahead of `is_legitimate_function_existence_check`: a concrete call
before the next test/describe header. -/
def lookaheadCall (lines : List Str) : List Nat → Bool
  | [] => false
  | i :: rest =>
      let next_line := pyStrip (lines.getD i [])
      if pySearch methodCallPat next_line && !strIn "expect".data next_line then true
      else if pyMatch clsItDescribePat next_line then false
      else lookaheadCall lines rest

/-- Python `is_legitimate_function_existence_check`. -/
def is_legitimate_function_existence_check (lines : List Str) (line_index : Nat) (line : Str) : Bool :=
  let current_line := pyStrip line
  if (idxRange (line_index - 10) line_index).any (fun i =>
      pyMatch clsIfHeaderPat (pyStrip (lines.getD i []))) then false
  else if pySearch expectWindowFnInstFuncPat current_line then true
  else if (idxRange (line_index - 5) line_index).any (fun i =>
      pyMatch clsItPat (pyStrip (lines.getD i []))) then true
  else lookaheadCall lines (idxRange (line_index + 1) (min lines.length (line_index + 8)))

/-- Python `is_legitimate_expect_anything`. -/
def is_legitimate_expect_anything (lines : List Str) (line_index : Nat) (line : Str) : Bool :=
  let current_line := pyStrip line
  pySearch anythingDefaultPat current_line ||
  pySearch anythingTimestampPat current_line ||
  pySearch anythingParamsPat current_line

/-! Section: Enclosing-function extraction and fuzzy matching -/

/-- Attempt, at one position, the capture of
`kw\s*\(\s*[quote]([^quote]+)[quote]` : consume the keyword, optional
whitespace, an opening parenthesis, optional whitespace and a quote, then
return the maximal nonempty run of non-quote characters provided a quote
follows (the unique viable reading of the greedy Python group). -/
def tryCallLabelAt (kw : Str) (t : Str) : Option Str :=
  if kw.isPrefixOf t then
    match (t.drop kw.length).dropWhile pyIsSpace with
    | '(' :: r2 =>
        match r2.dropWhile pyIsSpace with
        | q :: r4 =>
            if q = '"' || q = squoteChar then
              let body := r4.takeWhile (fun c => !(c = '"' || c = squoteChar))
              match r4.drop body.length with
              | q2 :: _ => if (q2 = '"' || q2 = squoteChar) && body ≠ [] then some body else none
              | [] => none
            else none
        | [] => none
    | _ => none
  else none

/-- Leftmost capture of `kw\s*\(\s*[quote]([^quote]+)[quote]` in `s`
(Python `re.search(...).group(1)`). -/
def searchCallLabel (kw : Str) (s : Str) : Option Str :=
  s.tails.findSome? (tryCallLabelAt kw)

/-- Leftmost capture of `(beforeAll|beforeEach|afterAll|afterEach)\s*\(`,
returning the matched keyword. -/
def searchBeforeAfter (s : Str) : Option Str :=
  s.tails.findSome? (fun t =>
    ["beforeAll", "beforeEach", "afterAll", "afterEach"].findSome? (fun kw =>
      if kw.data.isPrefixOf t then
        match (t.drop kw.length).dropWhile pyIsSpace with
        | '(' :: _ => some kw.data
        | _ => none
      else none))

/-- Backward scan of `extract_function_name` over the listed indices. -/
def extractGo (lines : List Str) : List Nat → Option Str
  | [] => none
  | i :: rest =>
      let line := pyStrip (lines.getD i [])
      match searchCallLabel "describe".data line with
      | some g => some g
      | none =>
        match searchCallLabel "it".data line with
        | some g => some g
        | none =>
          match searchCallLabel "test".data line with
          | some g => some g
          | none =>
            match searchBeforeAfter line with
            | some kw => some (kw ++ " setup".data)
            | none => extractGo lines rest

/-- Python `extract_function_name`: scan up to 20 lines backwards from the
match line for the nearest test/suite/setup declaration. -/
def extract_function_name (lines : List Str) (line_index : Nat) : Option Str :=
  if line_index ≥ lines.length then none
  else extractGo lines ((List.range (min (line_index + 1) 20)).map (fun k => line_index - k))

/-- Python `fuzzy_match_function` (the detection side is `None` when no
enclosing function was found). -/
def fuzzy_match_function (actual_function : Option Str) (expected_function : Str) : Bool :=
  match actual_function with
  | none => false
  | some a =>
      if a = [] || expected_function = [] then false
      else if a = expected_function then true
      else if lowerStr a = lowerStr expected_function then true
      else if strIn (lowerStr expected_function) (lowerStr a) ||
              strIn (lowerStr a) (lowerStr expected_function) then true
      else
        let actual_words := ((wordRuns (lowerStr a)).map String.mk).toFinset
        let expected_words := ((wordRuns (lowerStr expected_function)).map String.mk).toFinset
        if expected_words.card > 0 then
          decide (((actual_words ∩ expected_words).card : ℚ) / (expected_words.card : ℚ) ≥ 6 / 10)
        else false

/-! Section: Path matching -/

/-- Python `normalize_path`. -/
def normalize_path (path : Str) : Str :=
  replaceAll "//".data "/".data (replaceAll [Char.ofNat 92] "/".data path)

/-- Last element of a split (Python index `[-1]`, total since splits are nonempty). -/
def lastD (l : List Str) : Str := (l.getLast?).getD []

/-- Python `paths_match`. -/
def paths_match (path1 path2 : Str) : Bool :=
  let norm1 := normalize_path path1
  let norm2 := normalize_path path2
  if norm1 = norm2 then true
  else if norm2.isSuffixOf norm1 || norm1.isSuffixOf norm2 then true
  else
    let file1 := lastD (splitOnChar '/' norm1)
    let file2 := lastD (splitOnChar '/' norm2)
    if file1 = file2 && decide (file1.length > 0) then
      let parts1 := splitOnChar '/' norm1
      let parts2 := splitOnChar '/' norm2
      if parts1.length ≥ 2 && parts2.length ≥ 2 then
        decide (parts1.getD (parts1.length - 2) [] = parts2.getD (parts2.length - 2) []) ||
        (decide ("test".data ∈ parts1) && decide ("test".data ∈ parts2))
      else false
    else false

/-! Section: False-positive matcher (`is_false_positive`) -/

/-- Normalization applied to both snippets: strip, lowercase, collapse
whitespace (Python `re.sub` of `\s+` on `strip().lower()`). -/
def clean_snippet (s : Str) : Str := collapseWs false (lowerStr (pyStrip s))

/-- Leftmost capture of `typeof window\.(\w+)`: the word run after the
leftmost occurrence of `typeof window.` that is followed by a word character. -/
def searchTypeofWindowName (s : Str) : Option Str :=
  s.tails.findSome? (fun t =>
    if ("typeof window.".data).isPrefixOf t then
      let run := (t.drop 14).takeWhile pyIsWord
      if run ≠ [] then some run else none
    else none)

/-- Leftmost capture of `expect\(([^)]+)\)\.toBeDefined` (note the
case-sensitive literal, exactly as in the Python source). -/
def searchExpectToBeDefinedTarget (s : Str) : Option Str :=
  s.tails.findSome? (fun t =>
    if ("expect(".data).isPrefixOf t then
      let body := (t.drop 7).takeWhile (fun c => c ≠ ')')
      if body ≠ [] then
        match (t.drop 7).drop body.length with
        | ')' :: rest2 => if (".toBeDefined".data).isPrefixOf rest2 then some body else none
        | _ => none
      else none
    else none)

/-- Python `var.split('.')[-1]`. -/
def splitDotLast (s : Str) : Str := lastD (splitOnChar '.' s)

/-- Meaningful tokens of a normalized snippet: word runs of length at least 3
minus the fixed stopword set. -/
def meaningful_tokens (s : Str) : Finset String :=
  (((wordRuns s).filter (fun w => w.length ≥ 3)).map String.mk).toFinset \
    {"expect", "tobe", "defined", "function", "window"}

/-- Generic token-overlap fallback of the snippet match: intersection over
union of meaningful tokens at the 70 percent threshold (Python float
arithmetic modelled by exact rationals). -/
def snippet_token_fallback (fp_clean det_clean : Str) : Bool :=
  let fp_words := meaningful_tokens fp_clean
  let det_words := meaningful_tokens det_clean
  if fp_words.card ≠ 0 ∧ det_words.card ≠ 0 then
    let overlap := (fp_words ∩ det_words).card
    let total_unique := (fp_words ∪ det_words).card
    decide ((overlap : ℚ) / (total_unique : ℚ) ≥ 7 / 10)
  else false

/-- The enhanced fuzzy code-snippet comparison of `is_false_positive`
(the `code_matches` computation), with the Python `if`/`elif` chain
transcribed branch for branch. -/
def code_snippet_matches (fp : FalsePositive) (detection_code : Str) : Bool :=
  let fp_code_clean := clean_snippet fp.code_snippet
  let detection_code_clean := clean_snippet detection_code
  let b0 : Bool :=
    if fp.pattern_name = "Conditional Test Execution".data then
      if strIn "typeof window.".data fp_code_clean && strIn "undefined".data fp_code_clean &&
         strIn "typeof window.".data detection_code_clean && strIn "undefined".data detection_code_clean then
        match searchTypeofWindowName fp_code_clean, searchTypeofWindowName detection_code_clean with
        | some a, some b => decide (a = b)
        | _, _ => false
      else false
    else false
  let b1 : Bool :=
    if !b0 && (strIn fp_code_clean detection_code_clean || strIn detection_code_clean fp_code_clean) then
      true
    else if strIn "typeof".data fp_code_clean && strIn "object".data fp_code_clean then
      if strIn "typeof".data detection_code_clean && strIn "object".data detection_code_clean then true else b0
    else if strIn "expect(".data fp_code_clean && strIn ").toBeDefined()".data fp_code_clean then
      match searchExpectToBeDefinedTarget fp_code_clean, searchExpectToBeDefinedTarget detection_code_clean with
      | some fpt, some dett =>
          let fp_var := pyStrip fpt
          let det_var := pyStrip dett
          if strIn fp_var det_var || strIn det_var fp_var || splitDotLast fp_var = splitDotLast det_var then
            true
          else b0
      | _, _ => b0
    else if strIn "catch".data fp_code_clean && strIn "error".data fp_code_clean then
      if strIn "catch".data detection_code_clean && strIn "error".data detection_code_clean then true else b0
    else b0
  if !b1 then snippet_token_fallback fp_code_clean detection_code_clean else b1

/-- The branchless form of the line-range window computed by
`is_false_positive` (both Python branches compute the same bounds). -/
def fuzzy_line_bounds (line_tolerance expected_start expected_end : Int) : Int × Int :=
  if expected_start = expected_end then
    (expected_start - line_tolerance, expected_end + line_tolerance)
  else
    (expected_start - line_tolerance, expected_end + line_tolerance)

/-- The line-range candidate check of `is_false_positive`:
`fuzzy_start <= actual_line <= fuzzy_end`. -/
def line_range_check (line_tolerance expected_start expected_end actual_line : Int) : Bool :=
  let b := fuzzy_line_bounds line_tolerance expected_start expected_end
  decide (b.1 ≤ actual_line ∧ actual_line ≤ b.2)

/-- The suppression reason string `f"[reason] (confidence: [tier])"`. -/
def make_fp_reason (fp : FalsePositive) : Str :=
  fp.reason ++ " (confidence: ".data ++ fp.confidence ++ [')']

/-- The five-check fuzzy-match relation applied by `is_false_positive` to one
candidate `ReviewedFinding`: exact rule name, fuzzy path, fuzzy enclosing
function, tolerant line range, fuzzy snippet. -/
def detection_matches_fp (line_tolerance : Int) (lines : List Str) (detection : Detection)
    (fp : FalsePositive) : Bool :=
  decide (fp.pattern_name = detection.pattern_name) &&
  paths_match detection.filename fp.file &&
  fuzzy_match_function (extract_function_name lines (detection.line_number - 1)) fp.function &&
  line_range_check line_tolerance fp.line_range.1 fp.line_range.2 (detection.line_number : Int) &&
  code_snippet_matches fp detection.code_line

/-- Loop of `is_false_positive` over the registry: first match wins and
supplies the reason. -/
def is_false_positive_go (line_tolerance : Int) (lines : List Str) (detection : Detection) :
    List FalsePositive → Bool × Option Str
  | [] => (false, none)
  | fp :: rest =>
      if detection_matches_fp line_tolerance lines detection fp then
        (true, some (make_fp_reason fp))
      else is_false_positive_go line_tolerance lines detection rest

/-- Python `is_false_positive`.  The Python method re-reads
`detection.filename`; the scan only ever asks about the file it is currently
scanning, whose lines are passed here directly. -/
def is_false_positive (line_tolerance : Int) (fps : List FalsePositive) (lines : List Str)
    (detection : Detection) : Bool × Option Str :=
  is_false_positive_go line_tolerance lines detection fps

/-! Section: Line scanner, directory scan, reporting, exit code -/

/-- Dispatch of `detect_patterns_in_file` to the five context classifiers
(the `elif` chain on `pattern.name`); `true` means the raw hit is discarded. -/
def skip_by_classifier (name : Str) (lines : List Str) (line_index : Nat) (stripped_line : Str) : Bool :=
  if name = "Weak toBeDefined Assertion".data then
    is_legitimate_to_be_defined lines line_index stripped_line
  else if name = "Weak Instanceof Fallback".data then
    is_legitimate_instanceof_check lines line_index stripped_line
  else if name = "Weak Object Type Check".data then
    is_legitimate_object_type_check lines line_index stripped_line
  else if name = "Function Existence Test".data then
    is_legitimate_function_existence_check lines line_index stripped_line
  else if name = "Generic expect.anything() Overuse".data then
    is_legitimate_expect_anything lines line_index stripped_line
  else false

/-- The `detection._replace(is_false_positive=..., false_positive_reason=...)`
step of `detect_patterns_in_file`: consult the false-positive matcher and set
the two suppression fields exactly once. -/
def apply_fp_flags (line_tolerance : Int) (fps : List FalsePositive) (lines : List Str)
    (detection : Detection) : Detection :=
  let fpRes := is_false_positive line_tolerance fps lines detection
  if fpRes.1 then
    { detection with is_false_positive := true, false_positive_reason := fpRes.2 }
  else detection

/-- The per-line part of `detect_patterns_in_file`: every rule against every
non-blank comment-stripped line, classifier gating, then the
false-positive matcher sets the suppression fields. -/
def detect_line_detections (line_tolerance : Int) (filepath : Str) (lines : List Str)
    (fps : List FalsePositive) : List Detection :=
  (List.range lines.length).flatMap (fun line_index =>
    let line := lines.getD line_index []
    let stripped_line := strip_comments line
    if pyStrip stripped_line = [] then []
    else
      anti_patterns.filterMap (fun pattern =>
        if ciSearch pattern.pattern stripped_line then
          if skip_by_classifier pattern.name lines line_index stripped_line then none
          else
            some (apply_fp_flags line_tolerance fps lines {
              filename := filepath,
              line_number := line_index + 1,
              pattern_name := pattern.name,
              code_line := pyStrip stripped_line,
              context := get_context_lines lines line_index filepath 6 })
        else none))

/-- Python `detect_patterns_in_file`: per-line detections, then the multiline
detections appended (the latter are not routed through `is_false_positive`). -/
def detect_patterns_in_file (line_tolerance : Int) (filepath : Str) (lines : List Str)
    (fps : List FalsePositive) : List Detection :=
  detect_line_detections line_tolerance filepath lines fps ++
    detect_multiline_patterns filepath lines

/-- Python `get_pattern_by_name`: lookup in the rule registry, `None`
(here `none`) when the name is absent. -/
def get_pattern_by_name (name : Str) : Option AntiPattern :=
  anti_patterns.find? (fun p => p.name = name)

/-- One scanned file: directory root, file name, raw content. -/
structure FileEntry where
  root : Str
  name : Str
  content : Str

/-- The default file filter `.*\.test\.js$` applied with `re.match`. -/
def test_file_pattern : PyPat := ⟨true, true, rcat [dotS, rs ".test.js"]⟩

/-- Python `scan_directory`: walk the entries, scan every file whose name
matches the filter (the walk itself is modelled by the given entry list). -/
def scan_directory (line_tolerance : Int) (entries : List FileEntry)
    (fps : List FalsePositive) : List Detection :=
  entries.flatMap (fun e =>
    if pyMatch test_file_pattern e.name then
      detect_patterns_in_file line_tolerance (e.root ++ [ '/' ] ++ e.name) (pyReadLines e.content) fps
    else [])

/-- Fuel-bounded worker for `dedupFirst` (fuel is the list length, which
never runs out because filtering only shrinks the list). -/
def dedupFirstFuel : Nat → List Str → List Str
  | 0, _ => []
  | _, [] => []
  | fuel + 1, x :: rest => x :: dedupFirstFuel fuel (rest.filter (fun y => y ≠ x))

/-- Keep the first occurrence of each element (Python dict insertion order
for the report groups). -/
def dedupFirst (l : List Str) : List Str := dedupFirstFuel l.length l

/-- The severity lookups performed by `print_detections` while rendering the
report (its printing is I/O and carries no further data flow); `none` models
the Python `AttributeError` raised when `get_pattern_by_name` returns `None`
for a reported rule name, which aborts the process before any exit-status
selection. -/
def print_detections_severities (detections : List Detection) : Option (List (Str × Str)) :=
  let true_positives := detections.filter (fun d => !d.is_false_positive)
  let false_positives := detections.filter (fun d => d.is_false_positive)
  if true_positives.isEmpty && false_positives.isEmpty then some []
  else if true_positives.isEmpty then some []
  else
    (dedupFirst (true_positives.map (fun d => d.pattern_name))).mapM (fun n =>
      (get_pattern_by_name n).map (fun p => (n, p.severity)))

/-- Python `main` after argument parsing: missing directory exits 1 before
scanning; otherwise scan, report, and exit 1 exactly when an unsuppressed
detection of high severity exists.  `none` models an uncaught exception
(no exit status selected by the program logic). -/
def main_exit (dir_exists : Bool) (entries : List FileEntry) (fps : List FalsePositive)
    (line_tolerance : Int) : Option Int :=
  if !dir_exists then some 1
  else
    let detections := scan_directory line_tolerance entries fps
    match print_detections_severities detections with
    | none => none
    | some _ =>
        let true_positives := detections.filter (fun d => !d.is_false_positive)
        match true_positives.mapM (fun d => get_pattern_by_name d.pattern_name) with
        | none => none
        | some defs =>
            if (defs.filter (fun p => p.severity = "high".data)).length > 0 then some 1
            else some 0

/-! Section: Step lemmas for the comment stripper -/

def stripRun (st : StripState) (s : Str) : Str := stripGo s.length st s

theorem strip_comments_eq_run (l : Str) : strip_comments l = stripRun stripInit l := rfl

def groundSt (res : Str) : StripState := ⟨res, false, false, false, false, none⟩

def inStrSt (res : Str) (q : Char) : StripState := ⟨res, true, false, false, false, some q⟩

theorem stripInit_eq : stripInit = groundSt [] := rfl

theorem stripRun_ground_char (c : Char) (t res : Str)
    (h1 : c ≠ '"') (h2 : c ≠ squoteChar) (h3 : c ≠ backtickChar)
    (h4 : c ≠ '\\') (h5 : c ≠ '/') :
    stripRun (groundSt res) (c :: t) = stripRun (groundSt (res ++ [c])) t := by
  simp only [stripRun, List.length_cons, stripGo, groundSt, notInComment]
  simp [h1, h2, h3, h4, h5]

theorem stripRun_string_char (q c : Char) (t res : Str)
    (hq : c ≠ q) (hb : c ≠ '\\') :
    stripRun (inStrSt res q) (c :: t) = stripRun (inStrSt (res ++ [c]) q) t := by
  simp only [stripRun, List.length_cons, stripGo, inStrSt, notInComment]
  simp [hq, hb, Ne.symm hq]

theorem stripRun_open_quote (q : Char) (t res : Str)
    (hq : q = '"' ∨ q = squoteChar ∨ q = backtickChar) :
    stripRun (groundSt res) (q :: t) = stripRun (inStrSt (res ++ [q]) q) t := by
  have hb : q ≠ '\\' := by rcases hq with h | h | h <;> subst h <;> decide
  simp only [stripRun, List.length_cons, stripGo, groundSt, inStrSt, notInComment]
  rcases hq with h | h | h <;> subst h <;> simp [hb]

theorem stripRun_close_quote (q : Char) (t res : Str)
    (hq : q = '"' ∨ q = squoteChar ∨ q = backtickChar) :
    stripRun (inStrSt res q) (q :: t) = stripRun (groundSt (res ++ [q])) t := by
  have hb : q ≠ '\\' := by rcases hq with h | h | h <;> subst h <;> decide
  simp only [stripRun, List.length_cons, stripGo, groundSt, inStrSt, notInComment]
  rcases hq with h | h | h <;> subst h <;> simp [hb]

theorem stripRun_break (t res : Str) :
    stripRun (groundSt res) ('/' :: '/' :: t) = res := by
  have h1 : ('/' : Char) ≠ squoteChar := by decide
  have h2 : ('/' : Char) ≠ backtickChar := by decide
  simp only [stripRun, List.length_cons, stripGo, groundSt, notInComment]
  simp [h1, h2]

theorem stripRun_ground_run (cs : Str) (k res : Str)
    (h : ∀ c ∈ cs, c ≠ '"' ∧ c ≠ squoteChar ∧ c ≠ backtickChar ∧ c ≠ '\\' ∧ c ≠ '/') :
    stripRun (groundSt res) (cs ++ k) = stripRun (groundSt (res ++ cs)) k := by
  induction cs generalizing res with
  | nil => simp
  | cons c cs ih =>
      obtain ⟨h1, h2, h3, h4, h5⟩ := h c (by simp)
      rw [List.cons_append, stripRun_ground_char c _ res h1 h2 h3 h4 h5,
        ih _ (fun x hx => h x (by simp [hx]))]
      simp

theorem stripRun_string_run (q : Char) (cs k res : Str)
    (h : ∀ c ∈ cs, c ≠ q ∧ c ≠ '\\') :
    stripRun (inStrSt res q) (cs ++ k) = stripRun (inStrSt (res ++ cs) q) k := by
  induction cs generalizing res with
  | nil => simp
  | cons c cs ih =>
      obtain ⟨h1, h2⟩ := h c (by simp)
      rw [List.cons_append, stripRun_string_char q c _ res h1 h2,
        ih _ (fun x hx => h x (by simp [hx]))]
      simp

/-- C6: a line holding a string or template literal whose content may itself
contain `//` is stripped with the literal preserved verbatim, while a true
trailing `//` comment beginning outside the literal is removed together with
everything after it.  The side conditions say only that the prefix and
separator open no string or comment of their own and that the literal's
content does not close the literal or escape anything. -/
theorem c6_string_literal_preserved (q : Char)
    (hq : q = '"' ∨ q = squoteChar ∨ q = backtickChar)
    (pre mid sep rest : Str)
    (hpre : ∀ c ∈ pre, c ≠ '"' ∧ c ≠ squoteChar ∧ c ≠ backtickChar ∧ c ≠ '\\' ∧ c ≠ '/')
    (hmid : ∀ c ∈ mid, c ≠ q ∧ c ≠ '\\')
    (hsep : ∀ c ∈ sep, c ≠ '"' ∧ c ≠ squoteChar ∧ c ≠ backtickChar ∧ c ≠ '\\' ∧ c ≠ '/')
    (hcontains : strIn "//".data mid = true) :
    strip_comments (pre ++ (q :: (mid ++ (q :: (sep ++ ('/' :: ('/' :: rest)))))))
      = pre ++ (q :: (mid ++ (q :: sep))) := by
  rw [strip_comments_eq_run, stripInit_eq]
  rw [stripRun_ground_run pre (q :: (mid ++ (q :: (sep ++ ('/' :: ('/' :: rest)))))) [] hpre]
  rw [stripRun_open_quote q _ _ hq]
  rw [stripRun_string_run q mid _ _ hmid]
  rw [stripRun_close_quote q _ _ hq]
  rw [stripRun_ground_run sep _ _ hsep]
  rw [stripRun_break]
  simp

theorem stripGo_multi_consume (n : Nat) (cs : Str) (st : StripState)
    (hm : st.in_multi_comment = true) (h : ∀ c ∈ cs, c ≠ '*') (hn : cs.length ≤ n) :
    stripGo n st cs = st.result := by
  induction n generalizing cs st with
  | zero =>
      cases cs with
      | nil => rfl
      | cons c rest => simp at hn
  | succ m ih =>
      match cs with
      | [] => rfl
      | c :: rest =>
          have hc : c ≠ '*' := h c (by simp)
          have hrest : ∀ x ∈ rest, x ≠ '*' := fun x hx => h x (by simp [hx])
          have hhead : rest.head? ≠ some '*' := by
            cases rest with
            | nil => simp
            | cons y t =>
                simp only [List.head?]
                intro hy
                exact hrest y (by simp) (by injection hy)
          have hlen : rest.length ≤ m := by simpa using hn
          simp only [stripGo, notInComment, hm, hc, hhead, Bool.not_true, Bool.and_false,
            Bool.false_and, Bool.and_true, Bool.true_and, decide_False, if_false,
            Bool.false_eq_true, ite_false]
          split_ifs
          all_goals first
            | rfl
            | exact ih rest _ hm hrest hlen
            | simp_all

theorem strip_open_comment_consumes (res cs : Str) (h : ∀ c ∈ cs, c ≠ '*') :
    stripRun (groundSt res) ('/' :: '*' :: cs) = res := by
  have h1 : ('/' : Char) ≠ squoteChar := by decide
  have h2 : ('/' : Char) ≠ backtickChar := by decide
  show stripGo (cs.length + 1 + 1) (groundSt res) ('/' :: '*' :: cs) = res
  simp only [stripGo, groundSt, notInComment]
  simp only [h1, h2]
  norm_num
  exact stripGo_multi_consume _ cs _ rfl h (by omega)

theorem c7_amended_part1 (cs : Str) (h : ∀ c ∈ cs, c ≠ '*') :
    strip_comments ("x = 1; /*".data ++ cs) = "x = 1; ".data := by
  have hsplit : "x = 1; /*".data ++ cs = "x = 1; ".data ++ ('/' :: '*' :: cs) := rfl
  rw [strip_comments_eq_run, stripInit_eq, hsplit]
  rw [stripRun_ground_run "x = 1; ".data ('/' :: '*' :: cs) [] (by decide)]
  rw [strip_open_comment_consumes _ cs h]
  simp

/-! Section: Claim theorems -/

/-- Helper: `fuzzy_match_function` rejects a missing enclosing function. -/
theorem fuzzy_match_function_none (f : Str) : fuzzy_match_function none f = false := rfl

/-- Helper: when no enclosing function is extracted, the five-check relation
fails for every candidate reviewed finding. -/
theorem detection_matches_fp_eq_false_of_no_function (t : Int) (lines : List Str)
    (d : Detection) (fp : FalsePositive)
    (h : extract_function_name lines (d.line_number - 1) = none) :
    detection_matches_fp t lines d fp = false := by
  simp [detection_matches_fp, h, fuzzy_match_function]

/-- C8: with tolerance `t`, a detection at the recorded end line plus `t`
passes the line-range check while end plus `t+1` fails it, and the check is
exactly membership of the recorded range widened by `t` on both sides. -/
theorem c8_line_tolerance_boundary (t s e : Int) (ht : 0 ≤ t) (hse : s ≤ e) :
    line_range_check t s e (e + t) = true ∧
    line_range_check t s e (e + t + 1) = false ∧
    (∀ a : Int, line_range_check t s e a = true ↔ s - t ≤ a ∧ a ≤ e + t) := by
  refine ⟨?_, ?_, fun a => ?_⟩ <;>
    simp only [line_range_check, fuzzy_line_bounds, ite_self, decide_eq_true_eq,
      decide_eq_false_iff_not] <;> omega

/-- Witness for C8 at the default tolerance 5 and recorded range [1, 7]. -/
theorem c8_line_tolerance_boundary_witness :
    line_range_check 5 1 7 12 = true ∧ line_range_check 5 1 7 13 = false :=
  ⟨(c8_line_tolerance_boundary 5 1 7 (by norm_num) (by norm_num)).1,
   (c8_line_tolerance_boundary 5 1 7 (by norm_num) (by norm_num)).2.1⟩

/-- C9: under the generic token-overlap fallback, snippets sharing exactly
7 of 10 meaningful tokens (intersection 7, union 10, i.e. 70 percent
intersection-over-union) match, and sharing 6 of 10 does not. -/
theorem c9_token_overlap_threshold :
    (∀ s1 s2 : Str, (meaningful_tokens s1 ∩ meaningful_tokens s2).card = 7 →
      (meaningful_tokens s1 ∪ meaningful_tokens s2).card = 10 →
      snippet_token_fallback s1 s2 = true) ∧
    (∀ s1 s2 : Str, (meaningful_tokens s1 ∩ meaningful_tokens s2).card = 6 →
      (meaningful_tokens s1 ∪ meaningful_tokens s2).card = 10 →
      snippet_token_fallback s1 s2 = false) := by
  constructor <;> intro s1 s2 h1 h2 <;>
  · have hsub1 : meaningful_tokens s1 ∩ meaningful_tokens s2 ⊆ meaningful_tokens s1 :=
      Finset.inter_subset_left
    have hsub2 : meaningful_tokens s1 ∩ meaningful_tokens s2 ⊆ meaningful_tokens s2 :=
      Finset.inter_subset_right
    have hle1 := Finset.card_le_card hsub1
    have hle2 := Finset.card_le_card hsub2
    simp only [snippet_token_fallback]
    rw [if_pos ⟨by omega, by omega⟩, h1, h2]
    first
    | (rw [decide_eq_true_eq]; norm_num)
    | (rw [decide_eq_false_iff_not]; norm_num)

/-- Witness for C9: concrete snippet pairs with 7-of-10 and 6-of-10 shared
meaningful tokens. -/
theorem c9_token_overlap_threshold_witness :
    snippet_token_fallback "aaa bbb ccc ddd eee fff ggg xxx".data
      "aaa bbb ccc ddd eee fff ggg yyy zzz".data = true ∧
    snippet_token_fallback "aaa bbb ccc ddd eee fff qqq".data
      "aaa bbb ccc ddd eee fff ggg yyy zzz".data = false :=
  ⟨c9_token_overlap_threshold.1 _ _ (by decide) (by decide),
   c9_token_overlap_threshold.2 _ _ (by decide) (by decide)⟩

/-- C10: a detection whose backward scan finds no enclosing test, suite or
setup declaration (extracted function name missing) is never suppressed,
whatever the registry holds. -/
theorem c10_unknown_function_never_suppressed (t : Int) (fps : List FalsePositive)
    (lines : List Str) (d : Detection)
    (h : extract_function_name lines (d.line_number - 1) = none) :
    is_false_positive t fps lines d = (false, none) := by
  induction fps with
  | nil => rfl
  | cons fp rest ih =>
      simp only [is_false_positive, is_false_positive_go] at ih ⊢
      rw [detection_matches_fp_eq_false_of_no_function t lines d fp h]
      simpa using ih

/-- Witness for C10: a one-line file with no enclosing declaration and a
registry entry that matches on everything else. -/
theorem c10_unknown_function_never_suppressed_witness :
    is_false_positive 5
      [{ file := "a.test.js".data, function := "foo".data, line_range := (1, 1),
         pattern_name := "Generic toBeTruthy Fallback".data,
         code_snippet := "expect(true).toBeTruthy();".data, reason := "r".data,
         reviewed_by := "u".data, review_date := "d".data, confidence := "high".data }]
      ["expect(true).toBeTruthy();\n".data]
      { filename := "a.test.js".data, line_number := 1,
        pattern_name := "Generic toBeTruthy Fallback".data,
        code_line := "expect(true).toBeTruthy();".data, context := [] } = (false, none) :=
  c10_unknown_function_never_suppressed 5 _ _ _ (by decide)

/-! Section: Concrete scenario inputs shared by several claims -/

/-- Scenario file of claim C4 as stated: the single line of spec scenario A. -/
def lines_scenario_a : List Str :=
  ["if (window.fooApi) \x7b expect(result).toBeTruthy(); \x7d\n".data]

/-- The same scenario content split across three lines, so that the
end-anchored conditional rule can see a bare `if (...)` header and the
truthy rule its literal `expect(true)` argument. -/
def lines_scenario_a_split : List Str :=
  ["if (window.fooApi) \x7b\n".data,
   "  expect(true).toBeTruthy();\n".data,
   "\x7d\n".data]

/-- A minimal file on which the first multiline rule (mock-heavy test
without validation) fires. -/
def lines_mock_heavy : List Str :=
  ["const fooManager = \x7bmock: 1\x7d;\n".data,
   "x = 1;\n".data,
   "expect(a).toBeTruthy()\n".data]

/-- The mock-heavy file preceded by a suite header, so that an enclosing
function name exists for the fuzzy matcher. -/
def lines_mock_heavy_desc : List Str :=
  ["describe(\"foo\", () => \x7b\n".data,
   "const fooManager = \x7bmock: 1\x7d;\n".data,
   "x = 1;\n".data,
   "expect(a).toBeTruthy()\n".data]

/-- A registry entry matching the mock-heavy detection of
`lines_mock_heavy_desc` under all five fuzzy checks. -/
def fp_mock_heavy : FalsePositive :=
  { file := "a.test.js".data, function := "foo".data, line_range := (2, 2),
    pattern_name := "Mock-Heavy Test Without Validation".data,
    code_snippet := "const fooManager".data, reason := "r".data,
    reviewed_by := "x".data, review_date := "d".data, confidence := "high".data }

/-- A weak-definedness match on the second line, strictly inside an `if`
block opened on the first line and closed on the third. -/
def lines_cond_defined : List Str :=
  ["if (foo) \x7b\n".data,
   "expect(foo).toBeDefined();\n".data,
   "\x7d\n".data]

/-- An instance-of-Object match strictly inside an unclosed `if` block. -/
def lines_cond_instanceof : List Str :=
  ["if (foo) \x7b\n".data,
   "expect(foo).toBeInstanceOf(Object);\n".data,
   "\x7d\n".data]

/-- A block comment opened on line 1 without a close, followed by a line
with a truthy anti-pattern. -/
def lines_open_comment : List Str :=
  ["/* open\n".data,
   "expect(true).toBeTruthy()\n".data]

/-- C4 counterexample: scanning the file that consists of scenario A's single
line, with an empty registry, yields no detections at all — not the claimed
two: the conditional rule is end-anchored and the truthy rule requires a
literal `expect(true)`. -/
theorem c4_single_line_scenario_yields_no_detections :
    detect_patterns_in_file 5 "a.test.js".data lines_scenario_a [] = [] ∧
    (detect_patterns_in_file 5 "a.test.js".data lines_scenario_a []).length ≠ 2 := by
  constructor <;> decide

/-- C4 (amended): with the scenario content split so the `if (...)` header
stands alone and the truthy assertion reads `expect(true).toBeTruthy()`, the
scan yields exactly two detections — conditional test execution and generic
truthy — both of high severity and neither suppressed. -/
theorem c4_split_scenario_two_high_detections :
    ((detect_patterns_in_file 5 "a.test.js".data lines_scenario_a_split []).map
      (fun d => (d.pattern_name, d.line_number, d.is_false_positive))) =
      [("Conditional Test Execution".data, 1, false),
       ("Generic toBeTruthy Fallback".data, 2, false)] ∧
    (get_pattern_by_name "Conditional Test Execution".data).map (fun p => p.severity) =
      some "high".data ∧
    (get_pattern_by_name "Generic toBeTruthy Fallback".data).map (fun p => p.severity) =
      some "high".data := by
  refine ⟨by decide, by decide, by decide⟩

/-- Witness for C6: a concrete line whose double-quoted literal contains
`//` and which carries a real trailing comment. -/
theorem c6_string_literal_preserved_witness :
    strip_comments "x = \x22http://a\x22 // trailing".data = "x = \x22http://a\x22 ".data :=
  c6_string_literal_preserved '"' (Or.inl rfl) "x = ".data "http://a".data " ".data
    " trailing".data (by decide) (by decide) (by decide) (by decide)

/-- C7 counterexample: block-comment state does not carry across lines.  In a
file whose first line opens `/*` without closing it, the second line is
stripped to itself (not removed), and the scan produces an ordinary detection
on that second line. -/
theorem c7_block_comment_no_carry_over :
    strip_comments ("/* open\n".data) = [] ∧
    strip_comments ("expect(true).toBeTruthy()\n".data) = "expect(true).toBeTruthy()\n".data ∧
    ((detect_patterns_in_file 5 "a.test.js".data lines_open_comment []).map
      (fun d => (d.pattern_name, d.line_number, d.is_false_positive))) =
      [("Generic toBeTruthy Fallback".data, 2, false)] := by
  refine ⟨by decide, by decide, by decide⟩

/-- C7 (amended): the block-comment state of the stripper is per line, not
per file: a `/*` opened without a matching close consumes the remainder of
that one call, and each line of a file is stripped from the freshly reset
state, so the following lines are scanned normally. -/
theorem c7_block_comment_per_line :
    (∀ cs : Str, (∀ c ∈ cs, c ≠ '*') →
      strip_comments ("x = 1; /*".data ++ cs) = "x = 1; ".data) ∧
    ((detect_patterns_in_file 5 "a.test.js".data lines_open_comment []).map
      (fun d => (d.pattern_name, d.line_number, d.code_line))) =
      [("Generic toBeTruthy Fallback".data, 2, "expect(true).toBeTruthy()".data)] :=
  ⟨c7_amended_part1, by decide⟩

/-- Witness for C7's amended theorem at a concrete comment tail. -/
theorem c7_block_comment_per_line_witness :
    strip_comments "x = 1; /* opened and left open".data = "x = 1; ".data :=
  c7_block_comment_per_line.1 " opened and left open".data (by decide)

/-- C5 counterexample: a weak-definedness match strictly inside an open,
unclosed `if (...)` block (header on the previous line, closing brace after
the match) does produce a kept, unsuppressed Detection for its category. -/
theorem c5_conditional_match_detection_kept :
    ((detect_patterns_in_file 5 "a.test.js".data lines_cond_defined []).map
      (fun d => (d.pattern_name, d.line_number, d.is_false_positive))) =
      [("Conditional Test Execution".data, 1, false),
       ("Weak toBeDefined Assertion".data, 2, false)] := by
  decide

theorem strIn_singleton (c : Char) (s : Str) : strIn [c] s = true ↔ c ∈ s := by
  induction s with
  | nil => simp [strIn]
  | cons a s ih =>
      simp only [strIn, List.tails] at ih ⊢
      constructor
      · intro h
        rcases List.any_eq_true.mp h with ⟨t, ht, hpre⟩
        rcases List.mem_cons.mp ht with h1 | h2
        · subst h1
          have hsub := (List.isPrefixOf_iff_prefix.mp hpre).sublist
          have := hsub.mem (show c ∈ [c] by simp)
          simpa using this
        · exact List.mem_cons.mpr (Or.inr (ih.mp (List.any_eq_true.mpr ⟨t, h2, hpre⟩)))
      · intro h
        rcases List.mem_cons.mp h with h1 | h2
        · subst h1
          exact List.any_eq_true.mpr ⟨c :: s, by simp, by simp [List.isPrefixOf]⟩
        · rcases List.any_eq_true.mp (ih.mpr h2) with ⟨t, ht, hpre⟩
          exact List.any_eq_true.mpr ⟨t, by simp [ht], hpre⟩

theorem strIn_singleton_false (c : Char) (s : Str) (h : c ∉ s) : strIn [c] s = false := by
  rw [Bool.eq_false_iff]
  intro hc
  exact h ((strIn_singleton c s).mp hc)

theorem mem_pyStrip (c : Char) (s : Str) (h : c ∈ pyStrip s) : c ∈ s := by
  simp only [pyStrip] at h
  rw [List.mem_reverse] at h
  have h2 := (List.dropWhile_sublist _).mem h
  rw [List.mem_reverse] at h2
  exact (List.dropWhile_sublist _).mem h2

def weak_tobedefined_rule : AntiPattern := anti_patterns.get ⟨4, by decide⟩

def c5_lines (mid : Str) : List Str :=
  ["if (foo) \x7b\n".data, mid, "\x7d\n".data]

theorem c5_classifier_false (mid : Str) (hlb : lbraceChar ∉ mid) (hrb : rbraceChar ∉ mid)
    (line : Str) :
    is_legitimate_to_be_defined (c5_lines mid) 1 line = false := by
  have hl1 : strIn [lbraceChar] (pyStrip mid) = false :=
    strIn_singleton_false _ _ (fun hm => hlb (mem_pyStrip _ _ hm))
  have hr1 : strIn [rbraceChar] (pyStrip mid) = false :=
    strIn_singleton_false _ _ (fun hm => hrb (mem_pyStrip _ _ hm))
  have e0 : braceScan (c5_lines mid) 1 0 false [0, 1, 2] =
      braceScan (c5_lines mid) 1 1 true [1, 2] := rfl
  have e1 : braceScan (c5_lines mid) 1 1 true [1, 2] =
      braceScan (c5_lines mid) 1 1 true [2] := by
    rw [braceScan]
    have hg : (c5_lines mid).getD 1 [] = mid := rfl
    rw [hg, hl1, hr1]
    simp
  have e2 : braceScan (c5_lines mid) 1 1 true [2] = true := rfl
  have hbs : braceScan (c5_lines mid) 1 0 false [0, 1, 2] = true :=
    (e0.trans e1).trans e2
  have hcond : condBlockBroken (c5_lines mid) 1 = true := by
    simp only [condBlockBroken]
    have hidx : idxRange (1 - 10) 1 = [0] := rfl
    have hidx2 : idxRange 0 (min (c5_lines mid).length (1 + 10)) = [0, 1, 2] := rfl
    rw [hidx]
    simp only [List.any_cons, List.any_nil, hidx2]
    rw [hbs]
    simp
    rfl
  simp only [is_legitimate_to_be_defined, hcond]
  simp

/-- C5 (amended): a line matching a context-sensitive rule strictly inside an
open, unclosed `if (...)` block whose closing brace comes after the matched
line is reported as NOT legitimate by the classifiers, so the scan KEEPS an
unsuppressed Detection for that category: for every brace-free line on which
the weak-toBeDefined rule fires, placed between an `if (foo) \x7b` header and
a later closing brace, the scan emits a kept Detection at that line; the
instance-of classifier likewise rejects conditional placement. -/
theorem c5_conditional_match_kept (mid : Str)
    (hmatch : ciSearch weak_tobedefined_rule.pattern (strip_comments mid) = true)
    (hnonblank : pyStrip (strip_comments mid) ≠ [])
    (hlb : lbraceChar ∉ mid) (hrb : rbraceChar ∉ mid) :
    (∃ d ∈ detect_patterns_in_file 5 "a.test.js".data (c5_lines mid) [],
      d.pattern_name = "Weak toBeDefined Assertion".data ∧ d.line_number = 2 ∧
      d.is_false_positive = false) ∧
    is_legitimate_instanceof_check lines_cond_instanceof 1
      (strip_comments "expect(foo).toBeInstanceOf(Object);\n".data) = false := by
  refine ⟨?_, by decide⟩
  have hskip : skip_by_classifier weak_tobedefined_rule.name (c5_lines mid) 1
      (strip_comments mid) = false := by
    have hred : skip_by_classifier weak_tobedefined_rule.name (c5_lines mid) 1
        (strip_comments mid) =
        is_legitimate_to_be_defined (c5_lines mid) 1 (strip_comments mid) := rfl
    rw [hred]
    exact c5_classifier_false mid hlb hrb _
  refine ⟨{ filename := "a.test.js".data, line_number := 2,
            pattern_name := weak_tobedefined_rule.name,
            code_line := pyStrip (strip_comments mid),
            context := get_context_lines (c5_lines mid) 1 "a.test.js".data 6 },
          ?_, rfl, rfl, rfl⟩
  apply List.mem_append.mpr
  left
  apply List.mem_flatMap.mpr
  refine ⟨1, List.mem_range.mpr (by norm_num [c5_lines]), ?_⟩
  simp only [detect_line_detections, show (c5_lines mid).getD 1 [] = mid from rfl]
  rw [if_neg hnonblank]
  apply List.mem_filterMap.mpr
  refine ⟨weak_tobedefined_rule, List.get_mem _ _ (by decide), ?_⟩
  rw [if_pos hmatch, if_neg (by simp [hskip])]
  rfl

/-- Witness for C5's amended theorem at the concrete weak-definedness line of
`lines_cond_defined`. -/
theorem c5_conditional_match_kept_witness :
    ∃ d ∈ detect_patterns_in_file 5 "a.test.js".data
        (c5_lines "expect(foo).toBeDefined();\n".data) [],
      d.pattern_name = "Weak toBeDefined Assertion".data ∧ d.line_number = 2 ∧
      d.is_false_positive = false :=
  (c5_conditional_match_kept "expect(foo).toBeDefined();\n".data (by decide) (by decide)
    (by decide) (by decide)).1


/-- C3: the multiline scanner emits rule names that are absent from the rule
registry; on a file where the mock-heavy multiline rule fires,
`get_pattern_by_name` returns `none` for the detection's rule name, and both
the report's severity lookup and the exit-code severity count dereference
that `none` (modelled by `none`) instead of producing a report and an exit
status. -/
theorem c3_multiline_rule_name_missing :
    ((detect_patterns_in_file 5 "a.test.js".data lines_mock_heavy []).map
      (fun d => d.pattern_name)) = ["Mock-Heavy Test Without Validation".data] ∧
    (get_pattern_by_name "Mock-Heavy Test Without Validation".data).isNone = true ∧
    print_detections_severities
      (detect_patterns_in_file 5 "a.test.js".data lines_mock_heavy []) = none := by
  refine ⟨by decide, by decide, by decide⟩

/-- The content of `lines_mock_heavy` as one file for the directory scan. -/
def mock_heavy_entry : FileEntry :=
  { root := "test".data, name := "a.test.js".data,
    content := "const fooManager = \x7bmock: 1\x7d;\nx = 1;\nexpect(a).toBeTruthy()\n".data }

/-- C2: evaluation of the exit-status selection at a failing input.  Scanning
a directory holding one test file on which only the multiline mock-heavy rule
fires (so no unsuppressed Detection of high severity exists with a registry
severity), the process selects no exit status at all — the severity lookup
raises — where the claim requires status 0; the missing-directory branch does
exit 1 before scanning. -/
theorem c2_exit_status_at_failing_input :
    main_exit true [mock_heavy_entry] [] 5 = none ∧
    ((scan_directory 5 [mock_heavy_entry] []).all (fun d =>
      !(!d.is_false_positive &&
        decide ((get_pattern_by_name d.pattern_name).map (fun p => p.severity) =
          some "high".data)))) = true ∧
    main_exit false [mock_heavy_entry] [] 5 = some 1 := by
  refine ⟨by decide, by decide, by decide⟩

/-- C1 counterexample: a multiline-scanner Detection is not routed through the
false-positive matcher: with a registry entry that matches it under the
five-check fuzzy relation, the produced Detection still has its suppressed
flag `false`. -/
theorem c1_multiline_not_routed :
    ((detect_patterns_in_file 5 "a.test.js".data lines_mock_heavy_desc [fp_mock_heavy]).any
      (fun d => decide (d.pattern_name = "Mock-Heavy Test Without Validation".data) &&
        !d.is_false_positive &&
        detection_matches_fp 5 lines_mock_heavy_desc d fp_mock_heavy)) = true := by
  decide

theorem is_false_positive_fst (t : Int) (lines : List Str) (d : Detection)
    (fps : List FalsePositive) :
    (is_false_positive t fps lines d).1 =
      fps.any (fun fp => detection_matches_fp t lines d fp) := by
  induction fps with
  | nil => rfl
  | cons fp rest ih =>
      simp only [is_false_positive, is_false_positive_go, List.any_cons] at ih ⊢
      by_cases h : detection_matches_fp t lines d fp = true <;> simp [h, ih]

theorem is_false_positive_snd (t : Int) (lines : List Str) (d : Detection)
    (fps : List FalsePositive) :
    (is_false_positive t fps lines d).2 =
      (fps.find? (fun fp => detection_matches_fp t lines d fp)).map make_fp_reason := by
  induction fps with
  | nil => rfl
  | cons fp rest ih =>
      simp only [is_false_positive, is_false_positive_go, List.find?] at ih ⊢
      by_cases h : detection_matches_fp t lines d fp = true <;> simp [h, ih]

theorem detection_matches_fp_update (t : Int) (lines : List Str) (d : Detection)
    (b : Bool) (r : Option Str) (fp : FalsePositive) :
    detection_matches_fp t lines
      { d with is_false_positive := b, false_positive_reason := r } fp =
      detection_matches_fp t lines d fp := rfl

theorem apply_fp_flags_spec (t : Int) (fps : List FalsePositive) (lines : List Str)
    (detection : Detection)
    (h0 : detection.is_false_positive = false)
    (h1 : detection.false_positive_reason = none) :
    ((apply_fp_flags t fps lines detection).is_false_positive = true ↔
      ∃ fp ∈ fps, detection_matches_fp t lines (apply_fp_flags t fps lines detection) fp = true) ∧
    (apply_fp_flags t fps lines detection).false_positive_reason =
      (fps.find? (fun fp =>
        detection_matches_fp t lines (apply_fp_flags t fps lines detection) fp)).map
        make_fp_reason := by
  have hfst := is_false_positive_fst t lines detection fps
  have hsnd := is_false_positive_snd t lines detection fps
  simp only [apply_fp_flags]
  by_cases h : (is_false_positive t fps lines detection).1 = true
  · simp only [if_pos h, detection_matches_fp_update]
    refine ⟨⟨fun _ => ?_, fun _ => by trivial⟩, ?_⟩
    · exact List.any_eq_true.mp (hfst.symm.trans h)
    · exact hsnd
  · have hany : fps.any (fun fp => detection_matches_fp t lines detection fp) = false := by
      rw [← hfst]
      exact Bool.eq_false_iff.mpr h
    rw [if_neg h]
    have hall := List.any_eq_false.mp hany
    constructor
    · rw [h0]
      exact ⟨fun hc => absurd hc (by simp), fun ⟨fp, hfp, hm⟩ => absurd hm (hall fp hfp)⟩
    · rw [h1, List.find?_eq_none.mpr (fun fp hfp => by simpa using hall fp hfp)]
      rfl

/-- C1 (amended): for every Detection produced by the per-line scanner, the
suppressed flag is true iff some ReviewedFinding in the registry matches it
under the five-check fuzzy relation, and the first such finding supplies the
suppression reason (its free-text reason plus confidence tier).  Multiline
Detections are appended afterwards without ever consulting the matcher. -/
theorem c1_line_scan_suppression_iff (t : Int) (fname : Str) (lines : List Str)
    (fps : List FalsePositive) (d : Detection)
    (hd : d ∈ detect_line_detections t fname lines fps) :
    (d.is_false_positive = true ↔ ∃ fp ∈ fps, detection_matches_fp t lines d fp = true) ∧
    d.false_positive_reason =
      (fps.find? (fun fp => detection_matches_fp t lines d fp)).map make_fp_reason := by
  simp only [detect_line_detections, List.mem_flatMap, List.mem_range] at hd
  obtain ⟨li, hli, hd⟩ := hd
  by_cases hblank : pyStrip (strip_comments (lines.getD li [])) = []
  · rw [if_pos hblank] at hd
    simp at hd
  · rw [if_neg hblank] at hd
    rw [List.mem_filterMap] at hd
    obtain ⟨p, hp, hsome⟩ := hd
    split_ifs at hsome with hs hskip
    cases hsome
    exact apply_fp_flags_spec t fps lines _ rfl rfl

/-- A placeholder detection used only as the default of `List.getD`. -/
def dummy_detection : Detection :=
  { filename := [], line_number := 0, pattern_name := [], code_line := [], context := [] }

/-- Input lines of the C1 witness: a truthy anti-pattern inside a test block. -/
def c1_witness_lines : List Str :=
  ["it(\"adds things\", () => \x7b\n".data,
   "  expect(true).toBeTruthy();\n".data,
   "\x7d);\n".data]

/-- Registry entry of the C1 witness, matching the truthy detection. -/
def c1_witness_fp : FalsePositive :=
  { file := "a.test.js".data, function := "adds things".data, line_range := (2, 2),
    pattern_name := "Generic toBeTruthy Fallback".data,
    code_snippet := "expect(true).toBeTruthy();".data, reason := "reviewed ok".data,
    reviewed_by := "u".data, review_date := "d".data, confidence := "medium".data }

/-- Witness for C1's amended theorem at a concrete scan: the single produced
detection is suppressed exactly because the registry entry matches it. -/
theorem c1_line_scan_suppression_iff_witness :
    (((detect_line_detections 5 "a.test.js".data c1_witness_lines [c1_witness_fp]).getD 0
        dummy_detection).is_false_positive = true ↔
      ∃ fp ∈ [c1_witness_fp], detection_matches_fp 5 c1_witness_lines
        ((detect_line_detections 5 "a.test.js".data c1_witness_lines [c1_witness_fp]).getD 0
          dummy_detection) fp = true) ∧
    ((detect_line_detections 5 "a.test.js".data c1_witness_lines [c1_witness_fp]).getD 0
        dummy_detection).false_positive_reason =
      ([c1_witness_fp].find? (fun fp => detection_matches_fp 5 c1_witness_lines
        ((detect_line_detections 5 "a.test.js".data c1_witness_lines [c1_witness_fp]).getD 0
          dummy_detection) fp)).map make_fp_reason :=
  c1_line_scan_suppression_iff 5 "a.test.js".data c1_witness_lines [c1_witness_fp] _ (by decide)
